import Mathlib

/-!
# Verification of the Nitro attestation-document pipeline (`src/lib.rs`)

A shallow embedding of `NitroAdDoc::from_bytes`, `NitroAdDoc::to_json` and their
helpers from `src/lib.rs`.  Byte strings are `List Nat`; the external
collaborator crates (aws-nitro-enclaves-cose, serde_cbor, webpki, x509-parser,
openssl, chrono's clock) are modelled as oracle functions collected in the
`Externals` structure, since the repository only specifies how it uses them.
Rust control flow that can `panic!` (slicing `[1..]`, `Option::unwrap`) is made
explicit with a three-way outcome type `RResult`.
-/

namespace NitroAttestation

/-- Byte strings (`&[u8]` / `ByteBuf`) are lists of naturals. -/
abbrev Bytes := List Nat

/-- Model of `aws_cose::error::COSEError`; `from_bytes` only ever names
`UnimplementedError` explicitly (line 238), other variants are opaque. -/
inductive COSEError where
  | unimplementedError : COSEError
  | other : String → COSEError
deriving DecidableEq, Repr

/-- Model of `webpki::Error`: an opaque error value whose `to_string`
rendering is the `msg` field (used by `to_json`, line 265). -/
structure WebpkiError where
  msg : String
deriving DecidableEq, Repr

/-- Mirror of `enum NitroAdError` (lib.rs lines 94-102). `cborError` and
`serializationError` carry the message of the external error value. -/
inductive NitroAdError where
  | coseError : COSEError → NitroAdError
  | cborError : String → NitroAdError
  | verificationError : WebpkiError → NitroAdError
  | serializationError : String → NitroAdError
  | x509Error : String → NitroAdError
  | error : String → NitroAdError
deriving DecidableEq, Repr

/-- Outcome of running a Rust function that may return `Ok`, return `Err`,
or `panic!`.  Panics carry an informal message and are distinct from both
`Result` constructors: a caller cannot observe a panic as an error value. -/
inductive RResult (α : Type) where
  | ok : α → RResult α
  | err : NitroAdError → RResult α
  | panic : String → RResult α
deriving DecidableEq, Repr

/-- Mirror of `struct NitroAdDocPayload` (lib.rs lines 53-81).
`timestamp` is the `chrono::DateTime<Utc>` instant in milliseconds since the
Unix epoch (the payload wire format is `ts_milliseconds`).  `pcrs` models the
`HashMap<u8, ByteBuf>` as its iteration sequence: an association list whose
order is the (unspecified, arbitrary) iteration order of the hash map; the
decoded map has pairwise-distinct keys, each below 256. -/
structure NitroAdDocPayload where
  module_id : String
  digest : String
  timestamp : Int
  pcrs : List (Nat × Bytes)
  certificate : Bytes
  cabundle : List Bytes
  public_key : Option Bytes
  user_data : Option Bytes
  nonce : Option Bytes
deriving DecidableEq, Repr

/-- Mirror of `struct NitroAdDoc` (lib.rs lines 134-137). -/
structure NitroAdDoc where
  payload_ref : NitroAdDocPayload
  verify_err : Option WebpkiError
deriving DecidableEq, Repr

/-- Mirror of `NitroAdDoc::verification_error` (lib.rs lines 271-273). -/
def verificationError (d : NitroAdDoc) : Option WebpkiError :=
  d.verify_err

/-- Opaque model of `aws_cose::COSESign1` (the decoded COSE envelope). -/
structure COSESign1 where
  raw : Bytes
deriving DecidableEq, Repr

/-- Model of the certificate structure returned by
`x509_parser::parse_x509_certificate`: the parsed X.509 version number
(3 for a version-3 certificate, i.e. `X509Version::V3`) and the raw
`subject_pki.subject_public_key.data` bytes (lib.rs lines 222, 226). -/
structure X509Cert where
  version : Nat
  subjectPublicKey : Bytes
deriving DecidableEq, Repr

/-- Opaque model of a `webpki` trust anchor produced by
`trust_anchor_util::cert_der_as_trust_anchor`. -/
structure TrustAnchor where
  der : Bytes
deriving DecidableEq, Repr

/-- Opaque model of an `openssl` P-384 public key (`EcKey<Public>`). -/
structure EcKeyP384 where
  point : Bytes
deriving DecidableEq, Repr

/-- The webpki signature-algorithm allow-list `ALL_SIGALGS`
(lib.rs lines 37-51). -/
inductive SigAlg where
  | ecdsaP256Sha256 | ecdsaP256Sha384 | ecdsaP384Sha256 | ecdsaP384Sha384
  | ed25519
  | rsaPkcs1Sha256 | rsaPkcs1Sha384 | rsaPkcs1Sha512 | rsaPkcs1_3072Sha384
deriving DecidableEq, Repr

/-- Mirror of the static `ALL_SIGALGS` slice (lib.rs lines 37-51); the four
RSA entries are present when the `alloc` feature is compiled in, as in the
default build. -/
def ALL_SIGALGS : List SigAlg :=
  [.ecdsaP256Sha256, .ecdsaP256Sha384, .ecdsaP384Sha256, .ecdsaP384Sha384,
   .ed25519,
   .rsaPkcs1Sha256, .rsaPkcs1Sha384, .rsaPkcs1Sha512, .rsaPkcs1_3072Sha384]

/-- Structured rendering of a certificate as extracted by
`X509Certificate::from_der` inside `x509_to_json` (lib.rs lines 284-296). -/
structure RenderedCert where
  issuer : String
  subject : String
  notBefore : String
  notAfter : String
deriving DecidableEq, Repr

/-- The external collaborator crates, as oracle functions.  Each field
documents the Rust call it stands for:

* `coseFromBytes`    — `aws_cose::COSESign1::from_bytes` (line 145);
* `getPayload`       — `COSESign1::get_payload(None)` (line 151);
* `cborDecode`       — `serde_cbor::from_slice` (line 152); the error case
                       carries the message of the `serde_cbor::Error`;
* `certDerAsTrustAnchor` — `webpki::trust_anchor_util::cert_der_as_trust_anchor`
                       (line 207); `none` means the Rust call returned `Err`,
                       which the source immediately `.unwrap()`s;
* `endEntityCertFrom` — `webpki::EndEntityCert::from` (line 212);
* `verifyIsValidTlsServerCert` — `EndEntityCert::verify_is_valid_tls_server_cert`
                       (line 213), taking the end-entity DER, the intermediate
                       DER list, the trust-anchor list, the allow-list and the
                       reference time in seconds, returning `.err()`;
* `parseX509Certificate` — `x509_parser::parse_x509_certificate` (line 215);
                       `some (rem, cert)` is the `Ok` case, `none` the `Err`;
* `ecKeyP384FromBytes` — the `EcPoint::from_bytes` + `EcKey::from_public_key`
                       chain on the SECP384R1 group (lines 228-231); `none`
                       means the bytes are not a valid P-384 point, on which
                       the source `.unwrap()`s (a panic);
* `verifySignature`  — `COSESign1::verify_signature` (line 237);
* `nowMs`            — the value of `chrono::Utc::now()` at this run, in
                       milliseconds since the Unix epoch (line 166);
* `formatTimestamp`  — chrono's `Display` rendering of a timestamp (line 259);
* `x509FromDer`      — `X509Certificate::from_der` as used by `x509_to_json`
                       (line 285); the error case carries `e.to_string()`. -/
structure Externals where
  coseFromBytes : Bytes → Except COSEError COSESign1
  getPayload : COSESign1 → Except COSEError Bytes
  cborDecode : Bytes → Except String NitroAdDocPayload
  certDerAsTrustAnchor : Bytes → Option TrustAnchor
  endEntityCertFrom : Bytes → Except WebpkiError Unit
  verifyIsValidTlsServerCert :
      Bytes → List Bytes → List TrustAnchor → List SigAlg → Nat →
      Option WebpkiError
  parseX509Certificate : Bytes → Option (Bytes × X509Cert)
  ecKeyP384FromBytes : Bytes → Option EcKeyP384
  verifySignature : COSESign1 → EcKeyP384 → Except COSEError Bool
  nowMs : Int
  formatTimestamp : Int → String
  x509FromDer : Bytes → Except String RenderedCert

/-- `Utc.ymd(2020, 1, 1).and_hms(0, 0, 0)` (lib.rs line 165), in
milliseconds since the Unix epoch: 2020-01-01T00:00:00Z. -/
def tsStartMs : Int := 1577836800000

/-- `Duration::days(1)` (lib.rs line 166) in milliseconds. -/
def dayMs : Int := 86400000

/-- Error message of the missing-register check (lib.rs line 185):
`format!("PCR{} is missing", i)`. -/
def pcrMissingMsg (i : Nat) : String :=
  "PCR" ++ toString i ++ " is missing"

/-- Error message of the register-length check (lib.rs lines 190-193):
`format!("PCR{} len is other than 32/48/64 bytes", i)`. -/
def pcrLenMsg (i : Nat) : String :=
  "PCR" ++ toString i ++ " len is other than 32/48/64 bytes"

/-- One iteration of the PCR loop body (lib.rs lines 182-195): the
`contains_key` check, then the `[32, 48, 64].contains(&pcr_len)` check on
the digest at key `i`.  `none` means the iteration passed. -/
def pcrItemCheck (pcrs : List (Nat × Bytes)) (i : Nat) : Option NitroAdError :=
  match pcrs.lookup i with
  | none => some (.error (pcrMissingMsg i))
  | some v =>
      if v.length = 32 ∨ v.length = 48 ∨ v.length = 64 then none
      else some (.error (pcrLenMsg i))

/-- The `for i in 0..pcrs_len` loop (lib.rs lines 182-195), run over an
explicit index list; the `?` operator makes it fail-fast on the first
failing iteration. -/
def pcrLoop (pcrs : List (Nat × Bytes)) : List Nat → Option NitroAdError
  | [] => none
  | i :: rest =>
      match pcrItemCheck pcrs i with
      | some e => some e
      | none => pcrLoop pcrs rest

/-- The field-validation prefix of `from_bytes` (lib.rs lines 154-195):
module_id non-empty, digest equals "SHA384", timestamp strictly between
`ts_start` and `Utc::now() + Duration::days(1)`, PCR count (as `u8`, hence
the `% 256`) in `1..32`, then the per-register loop.  `none` means all
checks passed. -/
def validatePayload (nowMs : Int) (p : NitroAdDocPayload) :
    Option NitroAdError :=
  if ¬ 0 < p.module_id.length then
    some (.error "module_id is empty")
  else if ¬ p.digest = "SHA384" then
    some (.error "digest signature is unknown")
  else if ¬ (tsStartMs < p.timestamp ∧ p.timestamp < nowMs + dayMs) then
    some (.error "timestamp field has wrong value")
  else
    let pcrs_len := p.pcrs.length % 256
    if ¬ (1 ≤ pcrs_len ∧ pcrs_len < 32) then
      some (.error "wrong number of PCRs in the map")
    else
      pcrLoop p.pcrs (List.range pcrs_len)

/-- The certificate phase of `from_bytes` (lib.rs lines 197-253), in source
order: the `&interm[1..]` slice (panics when `cabundle` is empty), the
`.unwrap()` on `cert_der_as_trust_anchor` (panics when the caller-supplied
root does not parse), `EndEntityCert::from` (fatal `?`), the chain
validation whose `.err()` is merely recorded, `parse_x509_certificate`
with its remainder / version checks, the unwrapped P-384 point extraction,
and finally `verify_signature`, whose `false` outcome is fatal
(`COSEError::UnimplementedError`, line 238). -/
def certPhase (ext : Externals) (cose : COSESign1) (p : NitroAdDocPayload)
    (root_cert : Bytes) (unix_ts_sec : Nat) : RResult NitroAdDoc :=
  let ee := p.certificate
  if p.cabundle.length < 1 then
    .panic "range start index 1 out of range for slice of length 0"
  else
    let interm := p.cabundle.drop 1
    match ext.certDerAsTrustAnchor root_cert with
    | none => .panic "called Option unwrap on a None value"
    | some anchor =>
        match ext.endEntityCertFrom ee with
        | .error e => .err (.verificationError e)
        | .ok _ =>
            let verify_err :=
              ext.verifyIsValidTlsServerCert ee interm [anchor] ALL_SIGALGS
                unix_ts_sec
            match ext.parseX509Certificate ee with
            | none => .err (.error "x509 parsing failed")
            | some (rem, cert) =>
                if ¬ rem = [] then .err (.error "rem isnot empty")
                else if ¬ cert.version = 3 then
                  .err (.error "wrong cert version")
                else
                  match ext.ecKeyP384FromBytes cert.subjectPublicKey with
                  | none =>
                      .panic "called Option unwrap on a None value for EcPoint"
                  | some key =>
                      match ext.verifySignature cose key with
                      | .error e => .err (.coseError e)
                      | .ok sigOk =>
                          if ¬ sigOk then
                            .err (.coseError .unimplementedError)
                          else
                            .ok { payload_ref := p, verify_err := verify_err }

/-- JSON values as built by the `json` crate's `object!` macro; objects keep
their entries in insertion order. -/
inductive Json where
  | null : Json
  | str : String → Json
  | arr : List Json → Json
  | obj : List (String × Json) → Json

/-- Lowercase hexadecimal digit for a value below 16. -/
def hexDigit (n : Nat) : Char :=
  if n < 10 then Char.ofNat (48 + n) else Char.ofNat (87 + n)

/-- Lowercase two-digit hexadecimal rendering of one byte
(`hex::encode` encodes each byte as two lowercase hex digits). -/
def hexByte (b : Nat) : String :=
  String.mk [hexDigit (b / 16 % 16), hexDigit (b % 16)]

/-- Model of `hex::encode`: concatenation of the two-digit renderings. -/
def hexEncode (bs : Bytes) : String :=
  String.join (bs.map hexByte)

/-- The standard base64 alphabet, as a character list. -/
def base64Alphabet : List Char :=
  "ABCDEFGHIJKLMNOPQRSTUVWXYZabcdefghijklmnopqrstuvwxyz0123456789+/".data

/-- Character of the standard base64 alphabet at a 6-bit index. -/
def base64Digit (n : Nat) : Char :=
  base64Alphabet.getD (n % 64) '?'

/-- Model of `base64::encode` (standard alphabet, `=` padding):
encode three input bytes into four output characters at a time. -/
def base64Encode : Bytes → String
  | [] => ""
  | [a] =>
      String.mk [base64Digit (a / 4), base64Digit (a % 4 * 16), '=', '=']
  | [a, b] =>
      String.mk [base64Digit (a / 4), base64Digit (a % 4 * 16 + b / 16),
        base64Digit (b % 16 * 4), '=']
  | a :: b :: c :: rest =>
      String.mk [base64Digit (a / 4), base64Digit (a % 4 * 16 + b / 16),
        base64Digit (b % 16 * 4 + c / 64), base64Digit (c % 64)] ++
      base64Encode rest

/-- Mirror of `pcrs_to_json` (lib.rs lines 276-282): render each entry of
the PCR map, in the map's iteration order, as a JSON object entry mapping
the decimal index to the lowercase hex digest.  Note the absence of any
sorting: `pcrs.iter()` yields the hash map's arbitrary iteration order
(unlike the serde path `ser_peer_public`, line 89, which sorts and is not
used by `to_json`). -/
def pcrsToJson (pcrs : List (Nat × Bytes)) : Json :=
  .obj (pcrs.map (fun iv => (toString iv.1, .str (hexEncode iv.2))))

/-- Mirror of `x509_to_json` (lib.rs lines 284-296): parse one DER
certificate with `X509Certificate::from_der` and render issuer, subject and
validity window; a parse failure is `NitroAdError::X509Error`. -/
def x509ToJson (ext : Externals) (der : Bytes) : Except NitroAdError Json :=
  match ext.x509FromDer der with
  | .error e => .error (.x509Error e)
  | .ok c =>
      .ok (.obj [("issuer", .str c.issuer), ("subject", .str c.subject),
        ("validity", .obj [("not_before", .str c.notBefore),
          ("not_after", .str c.notAfter)])])

/-- Mirror of `x509s_to_json` (lib.rs lines 298-308): render every
`cabundle` certificate in order, then the end-entity certificate. -/
def x509sToJson (ext : Externals) (cert : Bytes) (cabundle : List Bytes) :
    Except NitroAdError (List Json) := do
  let mut0 ← cabundle.mapM (x509ToJson ext)
  let last ← x509ToJson ext cert
  .ok (mut0 ++ [last])

/-- Rendering of an optional byte field (`Option<ByteBuf>`) by an encoder:
`None` serializes as JSON `null`, `Some` as the encoded string. -/
def optField (enc : Bytes → String) : Option Bytes → Json
  | none => Json.null
  | some b => Json.str (enc b)

/-- Mirror of `NitroAdDoc::to_json` (lib.rs lines 255-269), up to the final
`json::stringify`: the JSON object tree with the nine fields in source
order.  `verification_error` is `null` or the webpki error's rendering. -/
def toJson (ext : Externals) (d : NitroAdDoc) : Except NitroAdError Json := do
  let certs ← x509sToJson ext d.payload_ref.certificate d.payload_ref.cabundle
  .ok (.obj [
    ("module_id", .str d.payload_ref.module_id),
    ("digest", .str d.payload_ref.digest),
    ("timestamp", .str (ext.formatTimestamp d.payload_ref.timestamp)),
    ("pcrs", pcrsToJson d.payload_ref.pcrs),
    ("certs", .arr certs),
    ("public_key", optField base64Encode d.payload_ref.public_key),
    ("user_data", optField base64Encode d.payload_ref.user_data),
    ("nonce", optField base64Encode d.payload_ref.nonce),
    ("verification_error",
      match d.verify_err with
      | none => Json.null
      | some e => Json.str e.msg)])

/-- Mirror of `NitroAdDoc::from_bytes` (lib.rs lines 140-253): COSE envelope
decoding, payload extraction, CBOR decoding, field validation, then the
certificate / signature phase. -/
def fromBytes (ext : Externals) (bytes : Bytes) (root_cert : Bytes)
    (unix_ts_sec : Nat) : RResult NitroAdDoc :=
  match ext.coseFromBytes bytes with
  | .error e => .err (.coseError e)
  | .ok ad_doc_cose =>
      match ext.getPayload ad_doc_cose with
      | .error e => .err (.coseError e)
      | .ok ad_payload =>
          match ext.cborDecode ad_payload with
          | .error e => .err (.cborError e)
          | .ok ad_parsed =>
              match validatePayload ext.nowMs ad_parsed with
              | some e => .err e
              | none =>
                  certPhase ext ad_doc_cose ad_parsed root_cert unix_ts_sec

/-- Field access in a JSON object (first entry with the given key). -/
def objField : Json → String → Option Json
  | .obj fields, k => fields.lookup k
  | _, _ => none

/-- The key sequence of a JSON object, in its stored (insertion) order. -/
def pcrsKeyOrder : Json → List String
  | .obj fields => fields.map Prod.fst
  | _ => []

/-! ## Concrete witness fixtures

A fully concrete run of the pipeline, used to instantiate the theorems at
explicit inputs. -/

/-- A 48-byte (SHA-384 sized) digest of zeros. -/
def pcr48 : Bytes := List.replicate 48 0

/-- A concrete well-formed payload with one PCR register. -/
def payloadW : NitroAdDocPayload where
  module_id := "i-0f3a-enc017f"
  digest := "SHA384"
  timestamp := 1600000000000
  pcrs := [(0, pcr48)]
  certificate := [1]
  cabundle := [[2], [3]]
  public_key := none
  user_data := none
  nonce := none

/-- Concrete externals under which every pipeline stage succeeds on
`payloadW`. -/
def extW : Externals where
  coseFromBytes := fun _ => .ok ⟨[0]⟩
  getPayload := fun _ => .ok [0]
  cborDecode := fun _ => .ok payloadW
  certDerAsTrustAnchor := fun b => some ⟨b⟩
  endEntityCertFrom := fun _ => .ok ()
  verifyIsValidTlsServerCert := fun _ _ _ _ _ => none
  parseX509Certificate := fun _ => some ([], ⟨3, [7]⟩)
  ecKeyP384FromBytes := fun b => some ⟨b⟩
  verifySignature := fun _ _ => .ok true
  nowMs := 1650000000000
  formatTimestamp := fun _ => "2020-09-13 12:26:40 UTC"
  x509FromDer := fun _ => .ok ⟨"CN=aws", "CN=enclave", "nb", "na"⟩

/-- `extW` with an envelope signature that does not verify. -/
def extWBadSig : Externals :=
  { extW with verifySignature := fun _ _ => .ok false }

/-- A payload timestamped 2022-04-15T05:20:00Z. -/
def payloadC3 : NitroAdDocPayload :=
  { payloadW with timestamp := 1650000000000 }

/-- Externals decoding `payloadC3`, on a run where the system clock reads
1650000000000 ms (so the document timestamp is within clock + 1 day). -/
def extC3A : Externals :=
  { extW with cborDecode := fun _ => .ok payloadC3 }

/-- The same externals on a run where the system clock reads 1500000000000
ms (so the document timestamp exceeds clock + 1 day). -/
def extC3B : Externals :=
  { extC3A with nowMs := 1500000000000 }

/-- A payload whose digest algorithm is "SHA256". -/
def payloadC4 : NitroAdDocPayload :=
  { payloadW with digest := "SHA256" }

/-- Externals decoding `payloadC4`. -/
def extC4 : Externals :=
  { extW with cborDecode := fun _ => .ok payloadC4 }

/-- A payload with an empty measurements map. -/
def payloadC5 : NitroAdDocPayload :=
  { payloadW with pcrs := [] }

/-- Externals decoding `payloadC5`. -/
def extC5 : Externals :=
  { extW with cborDecode := fun _ => .ok payloadC5 }

/-- Externals whose leaf public key bytes are not a valid P-384 point. -/
def extC7 : Externals :=
  { extW with ecKeyP384FromBytes := fun _ => none }

/-- Externals whose leaf certificate is rejected by
`parse_x509_certificate`. -/
def extC7w : Externals :=
  { extW with parseX509Certificate := fun _ => none }

/-- A 32-byte (SHA-256 sized) digest of ones. -/
def pcr32 : Bytes := List.replicate 32 1

/-- A payload whose PCR map iterates in the order register 1, register 0,
and which carries a `public_key` blob. -/
def payloadC8 : NitroAdDocPayload :=
  { payloadW with
      pcrs := [(1, pcr48), (0, pcr32)]
      public_key := some [1, 2, 3] }

/-- Externals decoding `payloadC8`. -/
def extC8 : Externals :=
  { extW with cborDecode := fun _ => .ok payloadC8 }

/-- The verification result built from `payloadC8` with a clean chain. -/
def docC8 : NitroAdDoc :=
  { payload_ref := payloadC8, verify_err := none }

/-- The rendering of any certificate under `extW.x509FromDer`. -/
def certObjW : Json :=
  .obj [("issuer", .str "CN=aws"), ("subject", .str "CN=enclave"),
    ("validity", .obj [("not_before", .str "nb"), ("not_after", .str "na")])]

/-- The `certs` list for a document with a two-element `cabundle`. -/
def certsW : List Json := [certObjW, certObjW, certObjW]

/-- The full JSON report of `docC8` under `extC8`: note the `pcrs` object
lists register 1 before register 0, mirroring the map iteration order. -/
def jC8 : Json := .obj [
  ("module_id", .str "i-0f3a-enc017f"),
  ("digest", .str "SHA384"),
  ("timestamp", .str "2020-09-13 12:26:40 UTC"),
  ("pcrs", .obj [("1", .str (hexEncode pcr48)), ("0", .str (hexEncode pcr32))]),
  ("certs", .arr certsW),
  ("public_key", .str (base64Encode [1, 2, 3])),
  ("user_data", Json.null),
  ("nonce", Json.null),
  ("verification_error", Json.null)]

/-! ## Helper lemmas -/

/-- A string has positive length exactly when it is not the empty string. -/
theorem string_length_pos (s : String) : 0 < s.length ↔ s ≠ "" := by
  cases s with
  | mk data =>
      cases data with
      | nil => simp [String.length]
      | cons c cs =>
          simp only [String.length]
          constructor
          · intro _ h
            exact absurd (congrArg String.data h) (by simp)
          · intro _
            simp

/-- A fail-fast loop whose leading iterations all pass continues with the
remaining iterations. -/
theorem pcrLoop_append (pcrs : List (Nat × Bytes)) (l1 l2 : List Nat)
    (h : ∀ j ∈ l1, pcrItemCheck pcrs j = none) :
    pcrLoop pcrs (l1 ++ l2) = pcrLoop pcrs l2 := by
  induction l1 with
  | nil => rfl
  | cons i rest ih =>
      have hi : pcrItemCheck pcrs i = none := h i (by simp)
      have hr : ∀ j ∈ rest, pcrItemCheck pcrs j = none := fun j hj =>
        h j (by simp [hj])
      simp [pcrLoop, hi, ih hr]

/-- A failing PCR iteration reports either a missing register or a
wrong-length register, never anything else. -/
theorem pcrItemCheck_some (pcrs : List (Nat × Bytes)) (i : Nat)
    (e : NitroAdError) (h : pcrItemCheck pcrs i = some e) :
    e = .error (pcrMissingMsg i) ∨ e = .error (pcrLenMsg i) := by
  unfold pcrItemCheck at h
  split at h
  · exact Or.inl (Option.some.inj h).symm
  · split at h
    · cases h
    · exact Or.inr (Option.some.inj h).symm

/-- A failing PCR loop reports a missing or wrong-length register for some
index of the iteration list. -/
theorem pcrLoop_some (pcrs : List (Nat × Bytes)) (l : List Nat)
    (e : NitroAdError) (h : pcrLoop pcrs l = some e) :
    ∃ i ∈ l, e = .error (pcrMissingMsg i) ∨ e = .error (pcrLenMsg i) := by
  induction l with
  | nil => simp [pcrLoop] at h
  | cons i rest ih =>
      rw [pcrLoop] at h
      cases hc : pcrItemCheck pcrs i with
      | some e2 =>
          rw [hc] at h
          refine ⟨i, by simp, ?_⟩
          have he := Option.some.inj h
          subst he
          exact pcrItemCheck_some pcrs i e2 hc
      | none =>
          rw [hc] at h
          obtain ⟨i2, hi2, hmsg⟩ := ih h
          exact ⟨i2, by simp [hi2], hmsg⟩

/-- Splitting `List.range n` at an index `i < n`. -/
theorem range_split (i n : Nat) (h : i < n) :
    List.range n = List.range i ++ i :: List.range' (i + 1) (n - i - 1) := by
  have h1 := List.range'_append 0 i (n - i) 1
  have h3 : (0 : Nat) + 1 * i = i := by omega
  have h4 : n - i + i = n := by omega
  rw [h3, h4] at h1
  have h2 : n - i = (n - i - 1) + 1 := by omega
  rw [List.range_eq_range', ← h1, List.range_eq_range']
  congr 1
  rw [h2, List.range'_succ]
  simp

/-- A map with pairwise-distinct keys below 256 has at most 256 entries. -/
theorem pcrs_length_le (pcrs : List (Nat × Bytes))
    (hnodup : (pcrs.map Prod.fst).Nodup)
    (hkeys : ∀ k ∈ pcrs.map Prod.fst, k < 256) :
    pcrs.length ≤ 256 := by
  have h2 : (pcrs.map Prod.fst).toFinset ⊆ Finset.range 256 := by
    intro k hk
    exact Finset.mem_range.mpr (hkeys k (List.mem_toFinset.mp hk))
  have h3 := Finset.card_le_card h2
  rw [List.toFinset_card_of_nodup hnodup, Finset.card_range] at h3
  simpa using h3

/-- Under passing module-id, digest and timestamp checks, field validation
reduces to the measurement checks. -/
theorem validatePayload_pcr_phase (nowMs : Int) (p : NitroAdDocPayload)
    (hmod : p.module_id ≠ "") (hdig : p.digest = "SHA384")
    (hts : tsStartMs < p.timestamp ∧ p.timestamp < nowMs + dayMs) :
    validatePayload nowMs p =
      if ¬ (1 ≤ p.pcrs.length % 256 ∧ p.pcrs.length % 256 < 32) then
        some (.error "wrong number of PCRs in the map")
      else pcrLoop p.pcrs (List.range (p.pcrs.length % 256)) := by
  have h0 : 0 < p.module_id.length := (string_length_pos _).mpr hmod
  simp [validatePayload, h0, hdig, hts.1, hts.2]

/-! ## Theorems -/

/-- C1: if the COSE envelope signature does not verify under the key
extracted from the embedded leaf certificate (`verify_signature` returns
`false`), `from_bytes` returns the fatal signature-verification error
(`COSEError::UnimplementedError`, lib.rs line 238) and never a success
value, for every possible outcome `g` of the certificate-chain validation
against the caller-supplied trust anchor. -/
theorem C1_bad_signature_fatal (ext : Externals) (bytes root_cert : Bytes)
    (unix_ts_sec : Nat) (cose : COSESign1) (payload : Bytes)
    (p : NitroAdDocPayload) (anchor : TrustAnchor) (cert : X509Cert)
    (key : EcKeyP384)
    (hcose : ext.coseFromBytes bytes = .ok cose)
    (hpay : ext.getPayload cose = .ok payload)
    (hcbor : ext.cborDecode payload = .ok p)
    (hval : validatePayload ext.nowMs p = none)
    (hbundle : p.cabundle ≠ [])
    (hanchor : ext.certDerAsTrustAnchor root_cert = some anchor)
    (hee : ext.endEntityCertFrom p.certificate = .ok ())
    (hx509 : ext.parseX509Certificate p.certificate = some ([], cert))
    (hver : cert.version = 3)
    (hkey : ext.ecKeyP384FromBytes cert.subjectPublicKey = some key)
    (hsig : ext.verifySignature cose key = .ok false) :
    ∀ g, fromBytes { ext with verifyIsValidTlsServerCert := g }
        bytes root_cert unix_ts_sec = .err (.coseError .unimplementedError) := by
  intro g
  have hlen : ¬ p.cabundle.length < 1 := by
    simpa [Nat.lt_one_iff, List.length_eq_zero] using hbundle
  simp [fromBytes, certPhase, hcose, hpay, hcbor, hval, hanchor, hee, hx509,
    hver, hkey, hsig, hlen]

/-- C1 witness: under the concrete externals `extWBadSig` and a concretely
failing chain validation, `from_bytes` aborts with the signature error. -/
theorem C1_witness :
    fromBytes
      { extWBadSig with
          verifyIsValidTlsServerCert := fun _ _ _ _ _ => some ⟨"UnknownIssuer"⟩ }
      [0] [9] 1614967200 = .err (.coseError .unimplementedError) :=
  C1_bad_signature_fatal extWBadSig [0] [9] 1614967200 ⟨[0]⟩ [0] payloadW
    ⟨[9]⟩ ⟨3, [7]⟩ ⟨[7]⟩ rfl rfl rfl (by decide) (by decide) rfl rfl rfl rfl
    rfl rfl (fun _ _ _ _ _ => some ⟨"UnknownIssuer"⟩)

/-- C2: when every stage up to and including signature verification
succeeds, `from_bytes` returns a success value whatever the outcome `g` of
certificate-chain validation, capturing that outcome (an error on chain
failure, nothing on chain success) as the soft `verify_err` field of the
result. -/
theorem C2_chain_failure_is_soft (ext : Externals) (bytes root_cert : Bytes)
    (unix_ts_sec : Nat) (cose : COSESign1) (payload : Bytes)
    (p : NitroAdDocPayload) (anchor : TrustAnchor) (cert : X509Cert)
    (key : EcKeyP384)
    (hcose : ext.coseFromBytes bytes = .ok cose)
    (hpay : ext.getPayload cose = .ok payload)
    (hcbor : ext.cborDecode payload = .ok p)
    (hval : validatePayload ext.nowMs p = none)
    (hbundle : p.cabundle ≠ [])
    (hanchor : ext.certDerAsTrustAnchor root_cert = some anchor)
    (hee : ext.endEntityCertFrom p.certificate = .ok ())
    (hx509 : ext.parseX509Certificate p.certificate = some ([], cert))
    (hver : cert.version = 3)
    (hkey : ext.ecKeyP384FromBytes cert.subjectPublicKey = some key)
    (hsig : ext.verifySignature cose key = .ok true) :
    ∀ g, fromBytes { ext with verifyIsValidTlsServerCert := g }
        bytes root_cert unix_ts_sec =
      .ok { payload_ref := p,
            verify_err := g p.certificate (p.cabundle.drop 1) [anchor]
              ALL_SIGALGS unix_ts_sec } := by
  intro g
  have hlen : ¬ p.cabundle.length < 1 := by
    simpa [Nat.lt_one_iff, List.length_eq_zero] using hbundle
  simp [fromBytes, certPhase, hcose, hpay, hcbor, hval, hanchor, hee, hx509,
    hver, hkey, hsig, hlen]

/-- C2 witness: under `extW` and a concretely failing chain validation,
`from_bytes` succeeds and the chain error is queryable through
`verification_error`. -/
theorem C2_witness :
    fromBytes
      { extW with
          verifyIsValidTlsServerCert := fun _ _ _ _ _ => some ⟨"UnknownIssuer"⟩ }
      [0] [9] 1614967200 =
      .ok { payload_ref := payloadW, verify_err := some ⟨"UnknownIssuer"⟩ } :=
  C2_chain_failure_is_soft extW [0] [9] 1614967200 ⟨[0]⟩ [0] payloadW
    ⟨[9]⟩ ⟨3, [7]⟩ ⟨[7]⟩ rfl rfl rfl (by decide) (by decide) rfl rfl rfl rfl
    rfl rfl (fun _ _ _ _ _ => some ⟨"UnknownIssuer"⟩)

/-- C6: the outcome of `from_bytes` depends on the chain path validator
only through its value at exactly the leaf certificate, the intermediate
list `cabundle[1:]` (claimed root discarded), the singleton anchor list
built from the caller-supplied root, the fixed allow-list, and the
caller-supplied time: replacing the validator by any `g` that agrees at
that single point leaves the result unchanged. -/
theorem C6_chain_validator_inputs (ext : Externals)
    (g : Bytes → List Bytes → List TrustAnchor → List SigAlg → Nat →
      Option WebpkiError)
    (bytes root_cert : Bytes) (unix_ts_sec : Nat) (cose : COSESign1)
    (payload : Bytes) (p : NitroAdDocPayload) (anchor : TrustAnchor)
    (hcose : ext.coseFromBytes bytes = .ok cose)
    (hpay : ext.getPayload cose = .ok payload)
    (hcbor : ext.cborDecode payload = .ok p)
    (hanchor : ext.certDerAsTrustAnchor root_cert = some anchor)
    (hagree : g p.certificate (p.cabundle.drop 1) [anchor] ALL_SIGALGS
        unix_ts_sec =
      ext.verifyIsValidTlsServerCert p.certificate (p.cabundle.drop 1)
        [anchor] ALL_SIGALGS unix_ts_sec) :
    fromBytes { ext with verifyIsValidTlsServerCert := g }
        bytes root_cert unix_ts_sec =
      fromBytes ext bytes root_cert unix_ts_sec := by
  simp only [fromBytes, certPhase, hcose, hpay, hcbor]
  cases validatePayload ext.nowMs p with
  | some e => rfl
  | none =>
      by_cases hlen : p.cabundle.length < 1
      · simp [hlen]
      · simp only [hlen, hanchor, if_neg, ite_false]
        cases ext.endEntityCertFrom p.certificate with
        | error e => rfl
        | ok u => rw [hagree]

/-- C6 witness: replacing `extW`'s chain validator by a function that
agrees with it at the single consulted point keeps the result intact. -/
theorem C6_witness :
    fromBytes
      { extW with
          verifyIsValidTlsServerCert := fun _ interm _ _ _ =>
            if interm = [[3]] then none else some ⟨"BadDER"⟩ }
      [0] [9] 1614967200 = fromBytes extW [0] [9] 1614967200 :=
  C6_chain_validator_inputs extW
    (fun _ interm _ _ _ => if interm = [[3]] then none else some ⟨"BadDER"⟩)
    [0] [9] 1614967200 ⟨[0]⟩ [0] payloadW ⟨[9]⟩ rfl rfl rfl rfl (by decide)

/-- C9: a decoded record whose `cabundle` is empty but which passes all
field validation drives `from_bytes` into the `&interm[1..]` slice of an
empty vector (lib.rs line 202), a panic: no `NitroAdError` value is ever
returned on this input shape. -/
theorem C9_empty_cabundle_panics (ext : Externals) (bytes root_cert : Bytes)
    (unix_ts_sec : Nat) (cose : COSESign1) (payload : Bytes)
    (p : NitroAdDocPayload)
    (hcose : ext.coseFromBytes bytes = .ok cose)
    (hpay : ext.getPayload cose = .ok payload)
    (hcbor : ext.cborDecode payload = .ok p)
    (hval : validatePayload ext.nowMs p = none)
    (hempty : p.cabundle = []) :
    fromBytes ext bytes root_cert unix_ts_sec =
      .panic "range start index 1 out of range for slice of length 0" := by
  simp [fromBytes, certPhase, hcose, hpay, hcbor, hval, hempty]

/-- C9 witness: a concrete record with an empty `cabundle` panics. -/
theorem C9_witness :
    fromBytes
      { extW with
          cborDecode := fun _ => .ok { payloadW with cabundle := [] } }
      [0] [9] 1614967200 =
      .panic "range start index 1 out of range for slice of length 0" :=
  C9_empty_cabundle_panics
    { extW with cborDecode := fun _ => .ok { payloadW with cabundle := [] } }
    [0] [9] 1614967200 ⟨[0]⟩ [0] { payloadW with cabundle := [] }
    rfl rfl rfl (by decide) rfl

/-- C10: when the caller-supplied trust-anchor bytes do not parse as a DER
trust anchor, `from_bytes` panics on the `.unwrap()` of
`cert_der_as_trust_anchor` (lib.rs line 207) for every record that passes
field validation with a non-empty `cabundle`; the error-return path is
never taken for such an anchor. -/
theorem C10_bad_anchor_panics (ext : Externals) (bytes root_cert : Bytes)
    (unix_ts_sec : Nat) (cose : COSESign1) (payload : Bytes)
    (p : NitroAdDocPayload)
    (hcose : ext.coseFromBytes bytes = .ok cose)
    (hpay : ext.getPayload cose = .ok payload)
    (hcbor : ext.cborDecode payload = .ok p)
    (hval : validatePayload ext.nowMs p = none)
    (hbundle : p.cabundle ≠ [])
    (hanchor : ext.certDerAsTrustAnchor root_cert = none) :
    fromBytes ext bytes root_cert unix_ts_sec =
      .panic "called Option unwrap on a None value" := by
  have hlen : ¬ p.cabundle.length < 1 := by
    simpa [Nat.lt_one_iff, List.length_eq_zero] using hbundle
  simp [fromBytes, certPhase, hcose, hpay, hcbor, hval, hanchor, hlen]

/-- C10 witness: a concrete unparseable trust anchor panics. -/
theorem C10_witness :
    fromBytes { extW with certDerAsTrustAnchor := fun _ => none }
      [0] [9] 1614967200 = .panic "called Option unwrap on a None value" :=
  C10_bad_anchor_panics { extW with certDerAsTrustAnchor := fun _ => none }
    [0] [9] 1614967200 ⟨[0]⟩ [0] payloadW rfl rfl rfl (by decide) (by decide)
    rfl

/-- C4: field validation is fail-fast and ordered — module_id, then digest
algorithm, then timestamp, then measurement count — and the first violated
check alone produces the error: an empty module_id yields
"module_id is empty" whatever the other fields hold; a non-"SHA384" digest
on a non-empty module_id yields "digest signature is unknown"; and so on
down the chain. -/
theorem C4_failfast_ordered (ext : Externals) (bytes root_cert : Bytes)
    (unix_ts_sec : Nat) (cose : COSESign1) (payload : Bytes)
    (p : NitroAdDocPayload)
    (hcose : ext.coseFromBytes bytes = .ok cose)
    (hpay : ext.getPayload cose = .ok payload)
    (hcbor : ext.cborDecode payload = .ok p) :
    (p.module_id = "" →
      fromBytes ext bytes root_cert unix_ts_sec =
        .err (.error "module_id is empty")) ∧
    (p.module_id ≠ "" → p.digest ≠ "SHA384" →
      fromBytes ext bytes root_cert unix_ts_sec =
        .err (.error "digest signature is unknown")) ∧
    (p.module_id ≠ "" → p.digest = "SHA384" →
      ¬ (tsStartMs < p.timestamp ∧ p.timestamp < ext.nowMs + dayMs) →
      fromBytes ext bytes root_cert unix_ts_sec =
        .err (.error "timestamp field has wrong value")) ∧
    (p.module_id ≠ "" → p.digest = "SHA384" →
      tsStartMs < p.timestamp → p.timestamp < ext.nowMs + dayMs →
      ¬ (1 ≤ p.pcrs.length % 256 ∧ p.pcrs.length % 256 < 32) →
      fromBytes ext bytes root_cert unix_ts_sec =
        .err (.error "wrong number of PCRs in the map")) := by
  refine ⟨?_, ?_, ?_, ?_⟩
  · intro hmod
    simp [fromBytes, validatePayload, hcose, hpay, hcbor, hmod]
  · intro hmod hdig
    have h0 : 0 < p.module_id.length := (string_length_pos _).mpr hmod
    simp [fromBytes, validatePayload, hcose, hpay, hcbor, h0, hdig]
  · intro hmod hdig hts
    have h0 : 0 < p.module_id.length := (string_length_pos _).mpr hmod
    simp [fromBytes, validatePayload, hcose, hpay, hcbor, h0, hdig, hts]
  · intro hmod hdig hts1 hts2 hcount
    have h0 : 0 < p.module_id.length := (string_length_pos _).mpr hmod
    simp [fromBytes, validatePayload, hcose, hpay, hcbor, h0, hdig, hts1,
      hts2, hcount]

/-- C4 witness: a record with digest algorithm "SHA256" (and non-empty
module_id) fails with exactly the unknown-digest error. -/
theorem C4_witness :
    fromBytes extC4 [0] [9] 1614967200 =
      .err (.error "digest signature is unknown") :=
  (C4_failfast_ordered extC4 [0] [9] 1614967200 ⟨[0]⟩ [0] payloadC4
      rfl rfl rfl).2.1 (by decide) (by decide)

/-- C5: for a decoded record (with the hash-map invariant of distinct keys
below 256) that passes the earlier checks, a measurement count of 0 or ≥ 32
is rejected; with count in [1, 32), the first index of `[0, count)` that is
absent fails as "PCR i is missing" and the first whose digest length is
outside 32/48/64 fails naming that register; and when every register check
passes the pipeline proceeds to the certificate phase. -/
theorem C5_measurement_checks (ext : Externals) (bytes root_cert : Bytes)
    (unix_ts_sec : Nat) (cose : COSESign1) (payload : Bytes)
    (p : NitroAdDocPayload)
    (hcose : ext.coseFromBytes bytes = .ok cose)
    (hpay : ext.getPayload cose = .ok payload)
    (hcbor : ext.cborDecode payload = .ok p)
    (hnodup : (p.pcrs.map Prod.fst).Nodup)
    (hkeys : ∀ k ∈ p.pcrs.map Prod.fst, k < 256)
    (hmod : p.module_id ≠ "") (hdig : p.digest = "SHA384")
    (hts : tsStartMs < p.timestamp ∧ p.timestamp < ext.nowMs + dayMs) :
    ((p.pcrs.length = 0 ∨ 32 ≤ p.pcrs.length) →
      fromBytes ext bytes root_cert unix_ts_sec =
        .err (.error "wrong number of PCRs in the map")) ∧
    (∀ i, p.pcrs.length < 32 → i < p.pcrs.length →
      (∀ j, j < i → pcrItemCheck p.pcrs j = none) →
      p.pcrs.lookup i = none →
      fromBytes ext bytes root_cert unix_ts_sec =
        .err (.error (pcrMissingMsg i))) ∧
    (∀ i v, p.pcrs.length < 32 → i < p.pcrs.length →
      (∀ j, j < i → pcrItemCheck p.pcrs j = none) →
      p.pcrs.lookup i = some v →
      ¬ (v.length = 32 ∨ v.length = 48 ∨ v.length = 64) →
      fromBytes ext bytes root_cert unix_ts_sec =
        .err (.error (pcrLenMsg i))) ∧
    (0 < p.pcrs.length → p.pcrs.length < 32 →
      (∀ i, i < p.pcrs.length → pcrItemCheck p.pcrs i = none) →
      fromBytes ext bytes root_cert unix_ts_sec =
        certPhase ext cose p root_cert unix_ts_sec) := by
  have hle : p.pcrs.length ≤ 256 := pcrs_length_le p.pcrs hnodup hkeys
  have hred := validatePayload_pcr_phase ext.nowMs p hmod hdig hts
  refine ⟨?_, ?_, ?_, ?_⟩
  · intro hbad
    have hc : ¬ (1 ≤ p.pcrs.length % 256 ∧ p.pcrs.length % 256 < 32) := by
      omega
    simp [fromBytes, hcose, hpay, hcbor, hred, hc]
  · intro i hlt hi hgood hnone
    have hmod256 : p.pcrs.length % 256 = p.pcrs.length :=
      Nat.mod_eq_of_lt (by omega)
    have hc : 1 ≤ p.pcrs.length % 256 ∧ p.pcrs.length % 256 < 32 := by omega
    have hloop : pcrLoop p.pcrs (List.range p.pcrs.length) =
        some (.error (pcrMissingMsg i)) := by
      rw [range_split i p.pcrs.length hi,
        pcrLoop_append p.pcrs _ _ (fun j hj => hgood j (List.mem_range.mp hj))]
      simp [pcrLoop, pcrItemCheck, hnone]
    simp [fromBytes, hcose, hpay, hcbor, hred, hc, hmod256, hloop]
    rw [if_neg (by omega)]
  · intro i v hlt hi hgood hsome hbadlen
    have hmod256 : p.pcrs.length % 256 = p.pcrs.length :=
      Nat.mod_eq_of_lt (by omega)
    have hc : 1 ≤ p.pcrs.length % 256 ∧ p.pcrs.length % 256 < 32 := by omega
    have hloop : pcrLoop p.pcrs (List.range p.pcrs.length) =
        some (.error (pcrLenMsg i)) := by
      rw [range_split i p.pcrs.length hi,
        pcrLoop_append p.pcrs _ _ (fun j hj => hgood j (List.mem_range.mp hj))]
      simp [pcrLoop, pcrItemCheck, hsome, hbadlen]
    simp [fromBytes, hcose, hpay, hcbor, hred, hc, hmod256, hloop]
    rw [if_neg (by omega)]
  · intro hpos hlt hall
    have hmod256 : p.pcrs.length % 256 = p.pcrs.length :=
      Nat.mod_eq_of_lt (by omega)
    have hc : 1 ≤ p.pcrs.length % 256 ∧ p.pcrs.length % 256 < 32 := by omega
    have hloop : pcrLoop p.pcrs (List.range p.pcrs.length) = none := by
      have := pcrLoop_append p.pcrs (List.range p.pcrs.length) []
        (fun j hj => hall j (List.mem_range.mp hj))
      simpa [pcrLoop] using this
    simp [fromBytes, hcose, hpay, hcbor, hred, hc, hmod256, hloop]
    rw [if_neg (by omega)]

/-- C5 witness: a record with an empty measurements map is rejected with
the wrong-count error. -/
theorem C5_witness :
    fromBytes extC5 [0] [9] 1614967200 =
      .err (.error "wrong number of PCRs in the map") :=
  (C5_measurement_checks extC5 [0] [9] 1614967200 ⟨[0]⟩ [0] payloadC5
      rfl rfl rfl (by decide) (by decide) (by decide) rfl (by decide)).1
    (Or.inl rfl)

/-- Any string starting with "PCR" differs from the timestamp-check error
message. -/
theorem pcr_prefix_ne_ts (r s : String) :
    "PCR" ++ r ++ s ≠ "timestamp field has wrong value" := by
  intro h
  have h2 : ("PCR" ++ r ++ s).data.take 3 =
      ("timestamp field has wrong value" : String).data.take 3 := by rw [h]
  rw [show ("PCR" ++ r ++ s).data.take 3 = ['P', 'C', 'R'] from rfl] at h2
  exact absurd h2 (by decide)

/-- The certificate phase never reports the timestamp-check error: its
fatal errors are webpki, x509-shape, version and signature errors only. -/
theorem certPhase_ne_ts (ext : Externals) (cose : COSESign1)
    (p : NitroAdDocPayload) (root_cert : Bytes) (unix_ts_sec : Nat) :
    certPhase ext cose p root_cert unix_ts_sec ≠
      .err (.error "timestamp field has wrong value") := by
  unfold certPhase
  dsimp only
  repeat' split
  all_goals intro h
  all_goals first
    | cases h
    | (injection h with h1; injection h1 with h2; exact absurd h2 (by decide))

/-- C3 counterexample: with every caller-visible input fixed (document
bytes, trust anchor, caller-supplied reference time 1700000000 s, external
decoders), a document timestamped 1650000000000 ms — strictly inside the
claimed interval (platform launch, caller time + 1 day) — is accepted on a
run where the system clock `Utc::now()` reads 1650000000000 ms but rejected
with the timestamp error on a run where it reads 1500000000000 ms: the
check reads the system clock (lib.rs line 166), not the caller-supplied
time, so its outcome is not a function of the caller's inputs. -/
theorem C3_counterexample :
    fromBytes extC3A [0] [9] 1700000000 =
      .ok { payload_ref := payloadC3, verify_err := none } ∧
    fromBytes extC3B [0] [9] 1700000000 =
      .err (.error "timestamp field has wrong value") ∧
    tsStartMs < payloadC3.timestamp ∧
    payloadC3.timestamp < 1700000000 * 1000 + dayMs := by
  exact ⟨rfl, rfl, by decide, by decide⟩

/-- C3 amended: for a decoded record passing the module-id and digest
checks, `from_bytes` fails with the timestamp error exactly when the
timestamp does not lie strictly between the 2020-01-01 epoch floor and
`Utc::now() + 1 day`, where the "now" bound is the system clock sampled
during the call (modelled by `ext.nowMs`), not the caller-supplied
`unix_ts_sec` (which only feeds certificate validity). -/
theorem C3_amended_system_clock (ext : Externals) (bytes root_cert : Bytes)
    (unix_ts_sec : Nat) (cose : COSESign1) (payload : Bytes)
    (p : NitroAdDocPayload)
    (hcose : ext.coseFromBytes bytes = .ok cose)
    (hpay : ext.getPayload cose = .ok payload)
    (hcbor : ext.cborDecode payload = .ok p)
    (hmod : p.module_id ≠ "") (hdig : p.digest = "SHA384") :
    fromBytes ext bytes root_cert unix_ts_sec =
        .err (.error "timestamp field has wrong value") ↔
      ¬ (tsStartMs < p.timestamp ∧ p.timestamp < ext.nowMs + dayMs) := by
  have h0 : 0 < p.module_id.length := (string_length_pos _).mpr hmod
  constructor
  · intro h
    by_contra hin
    have hred := validatePayload_pcr_phase ext.nowMs p hmod hdig hin
    simp only [fromBytes, hcose, hpay, hcbor, hred] at h
    by_cases hcnt : 1 ≤ p.pcrs.length % 256 ∧ p.pcrs.length % 256 < 32
    · rw [if_neg (not_not_intro hcnt)] at h
      cases hl : pcrLoop p.pcrs (List.range (p.pcrs.length % 256)) with
      | none =>
          rw [hl] at h
          exact certPhase_ne_ts ext cose p root_cert unix_ts_sec h
      | some e =>
          rw [hl] at h
          have he : e = .error "timestamp field has wrong value" := by
            injection h
          obtain ⟨i, _, hmsg⟩ := pcrLoop_some _ _ _ hl
          rcases hmsg with h1 | h1 <;> rw [he] at h1
          · have h2 : pcrMissingMsg i = "timestamp field has wrong value" := by
              injection h1.symm
            exact pcr_prefix_ne_ts (toString i) " is missing" h2
          · have h2 : pcrLenMsg i = "timestamp field has wrong value" := by
              injection h1.symm
            exact pcr_prefix_ne_ts (toString i)
              " len is other than 32/48/64 bytes" h2
    · rw [if_pos hcnt] at h
      have h2 : "wrong number of PCRs in the map" =
          "timestamp field has wrong value" := by
        injection h with h1
        injection h1
      exact absurd h2 (by decide)
  · intro hout
    simp [fromBytes, validatePayload, hcose, hpay, hcbor, h0, hdig, hout]

/-- C3 witness: a run whose system clock reads 1500000000000 ms rejects the
document timestamped 1650000000000 ms with the timestamp error. -/
theorem C3_witness :
    fromBytes extC3B [0] [9] 1700000000 =
      .err (.error "timestamp field has wrong value") :=
  (C3_amended_system_clock extC3B [0] [9] 1700000000 ⟨[0]⟩ [0] payloadC3
      rfl rfl rfl (by decide) rfl).mpr (by decide)

/-- C7 counterexample: a document whose leaf certificate parses as X.509
version 3 but whose subject public key bytes are not a valid P-384 point
makes `from_bytes` panic on the `.unwrap()` of `EcPoint::from_bytes`
(lib.rs line 230) — not return an `X509Error` (or any error) value as the
claim states. -/
theorem C7_counterexample :
    fromBytes extC7 [0] [9] 1614967200 =
      .panic "called Option unwrap on a None value for EcPoint" := rfl

/-- C7 amended: in the signature-verifier stage (for a record reaching it
with a parseable webpki end-entity certificate), a leaf certificate that
`parse_x509_certificate` rejects, or that leaves trailing bytes, or whose
parsed version is not 3, produces an error return of `from_bytes`; but
subject public key bytes that are not a valid P-384 point produce a panic
via `.unwrap()`, not an error return. -/
theorem C7_amended_x509_stage (ext : Externals) (bytes root_cert : Bytes)
    (unix_ts_sec : Nat) (cose : COSESign1) (payload : Bytes)
    (p : NitroAdDocPayload) (anchor : TrustAnchor)
    (hcose : ext.coseFromBytes bytes = .ok cose)
    (hpay : ext.getPayload cose = .ok payload)
    (hcbor : ext.cborDecode payload = .ok p)
    (hval : validatePayload ext.nowMs p = none)
    (hbundle : p.cabundle ≠ [])
    (hanchor : ext.certDerAsTrustAnchor root_cert = some anchor)
    (hee : ext.endEntityCertFrom p.certificate = .ok ()) :
    (ext.parseX509Certificate p.certificate = none →
      fromBytes ext bytes root_cert unix_ts_sec =
        .err (.error "x509 parsing failed")) ∧
    (∀ rem cert, ext.parseX509Certificate p.certificate = some (rem, cert) →
      rem ≠ [] →
      fromBytes ext bytes root_cert unix_ts_sec =
        .err (.error "rem isnot empty")) ∧
    (∀ cert, ext.parseX509Certificate p.certificate = some ([], cert) →
      cert.version ≠ 3 →
      fromBytes ext bytes root_cert unix_ts_sec =
        .err (.error "wrong cert version")) ∧
    (∀ cert, ext.parseX509Certificate p.certificate = some ([], cert) →
      cert.version = 3 →
      ext.ecKeyP384FromBytes cert.subjectPublicKey = none →
      fromBytes ext bytes root_cert unix_ts_sec =
        .panic "called Option unwrap on a None value for EcPoint") := by
  have hlen : ¬ p.cabundle.length < 1 := by
    simpa [Nat.lt_one_iff, List.length_eq_zero] using hbundle
  refine ⟨?_, ?_, ?_, ?_⟩
  · intro hx509
    simp [fromBytes, certPhase, hcose, hpay, hcbor, hval, hanchor, hee,
      hx509, hlen]
  · intro rem cert hx509 hrem
    simp [fromBytes, certPhase, hcose, hpay, hcbor, hval, hanchor, hee,
      hx509, hrem, hlen]
  · intro cert hx509 hver
    simp [fromBytes, certPhase, hcose, hpay, hcbor, hval, hanchor, hee,
      hx509, hver, hlen]
  · intro cert hx509 hver hkey
    simp [fromBytes, certPhase, hcose, hpay, hcbor, hval, hanchor, hee,
      hx509, hver, hkey, hlen]

/-- C7 witness: a leaf certificate rejected by `parse_x509_certificate`
yields the x509-parsing error return. -/
theorem C7_witness :
    fromBytes extC7w [0] [9] 1614967200 =
      .err (.error "x509 parsing failed") :=
  (C7_amended_x509_stage extC7w [0] [9] 1614967200 ⟨[0]⟩ [0] payloadW
      ⟨[9]⟩ rfl rfl rfl (by decide) (by decide) rfl rfl).1 rfl

/-- C8 counterexample: a successfully constructed verification result whose
PCR map iterates register 1 before register 0 is rendered by `to_json` with
the measurements in exactly that iteration order — `["1", "0"]`, not the
ascending `["0", "1"]` the claim states: `pcrs_to_json` (lib.rs lines
276-282) applies no sorting. -/
theorem C8_counterexample :
    fromBytes extC8 [0] [9] 1614967200 = .ok docC8 ∧
    toJson extC8 docC8 = .ok jC8 ∧
    objField jC8 "pcrs" = some (pcrsToJson docC8.payload_ref.pcrs) ∧
    pcrsKeyOrder (pcrsToJson docC8.payload_ref.pcrs) = ["1", "0"] ∧
    ¬ List.Sorted (· ≤ ·) [(1 : Nat), 0] := by
  refine ⟨rfl, rfl, rfl, rfl, by decide⟩

/-- C8 amended: `to_json` is a pure projection of the verification result:
it echoes `module_id`, the digest algorithm name, the displayed timestamp,
the hex-encoded measurements in the map's iteration order (not sorted), the
base64-encoded optional fields, the structured certificate renderings, and
the chain error message exactly when the soft chain error is present. -/
theorem C8_amended_projection (ext : Externals) (d : NitroAdDoc)
    (certsJson : List Json)
    (hcerts : x509sToJson ext d.payload_ref.certificate
        d.payload_ref.cabundle = .ok certsJson) :
    ∃ j, toJson ext d = .ok j ∧
      objField j "module_id" = some (.str d.payload_ref.module_id) ∧
      objField j "digest" = some (.str d.payload_ref.digest) ∧
      objField j "timestamp" =
        some (.str (ext.formatTimestamp d.payload_ref.timestamp)) ∧
      objField j "pcrs" = some (pcrsToJson d.payload_ref.pcrs) ∧
      pcrsKeyOrder (pcrsToJson d.payload_ref.pcrs) =
        d.payload_ref.pcrs.map (fun iv => toString iv.1) ∧
      objField j "certs" = some (.arr certsJson) ∧
      objField j "public_key" =
        some (optField base64Encode d.payload_ref.public_key) ∧
      objField j "user_data" =
        some (optField base64Encode d.payload_ref.user_data) ∧
      objField j "nonce" =
        some (optField base64Encode d.payload_ref.nonce) ∧
      objField j "verification_error" =
        some (match d.verify_err with
          | none => Json.null
          | some e => Json.str e.msg) := by
  refine ⟨.obj [
      ("module_id", .str d.payload_ref.module_id),
      ("digest", .str d.payload_ref.digest),
      ("timestamp", .str (ext.formatTimestamp d.payload_ref.timestamp)),
      ("pcrs", pcrsToJson d.payload_ref.pcrs),
      ("certs", .arr certsJson),
      ("public_key", optField base64Encode d.payload_ref.public_key),
      ("user_data", optField base64Encode d.payload_ref.user_data),
      ("nonce", optField base64Encode d.payload_ref.nonce),
      ("verification_error",
        match d.verify_err with
        | none => Json.null
        | some e => Json.str e.msg)],
    ?_, rfl, rfl, rfl, rfl, ?_, rfl, rfl, rfl, rfl, rfl⟩
  · simp only [toJson, hcerts]
    rfl
  · simp [pcrsToJson, pcrsKeyOrder, List.map_map]

/-- C8 amended witness: the projection facts at the concrete result
`docC8` under `extW`. -/
theorem C8_witness :
    ∃ j, toJson extW docC8 = .ok j ∧
      objField j "module_id" = some (.str docC8.payload_ref.module_id) ∧
      objField j "digest" = some (.str docC8.payload_ref.digest) ∧
      objField j "timestamp" =
        some (.str (extW.formatTimestamp docC8.payload_ref.timestamp)) ∧
      objField j "pcrs" = some (pcrsToJson docC8.payload_ref.pcrs) ∧
      pcrsKeyOrder (pcrsToJson docC8.payload_ref.pcrs) =
        docC8.payload_ref.pcrs.map (fun iv => toString iv.1) ∧
      objField j "certs" = some (.arr certsW) ∧
      objField j "public_key" =
        some (optField base64Encode docC8.payload_ref.public_key) ∧
      objField j "user_data" =
        some (optField base64Encode docC8.payload_ref.user_data) ∧
      objField j "nonce" =
        some (optField base64Encode docC8.payload_ref.nonce) ∧
      objField j "verification_error" =
        some (match docC8.verify_err with
          | none => Json.null
          | some e => Json.str e.msg) :=
  C8_amended_projection extW docC8 certsW rfl

end NitroAttestation
